import Mathlib

/-
Verification of the dephy-boot-interface control core against its
natural-language specification.  The Python source (Code/Exo.py,
Code/ZhangCollins.py, Code/WitteCollins.py, Code/GaitCalculator.py) is
shallowly embedded over exact rational arithmetic: every numeric field is a
`ℚ`, Python `float` literals such as 0.25, 1.75 and 0.146 become the exact
rationals 1/4, 7/4 and 146/1000, and a Python runtime error
(ZeroDivisionError, TypeError) is modelled by an `Option` result of `none`.
-/

namespace DephyBoot

/-! ## Exo.py: actuator mapping (transmission ratio, torque to current) -/

/-- The per-device transmission polynomial coefficients `_wm_wa_coeffs`
read from bootConfig.ini (Exo.__init__, lines 149-155). -/
structure WmWaCoeffs where
  poly4 : ℚ
  poly3 : ℚ
  poly2 : ℚ
  poly1 : ℚ
  poly0 : ℚ
deriving DecidableEq

/-- The raw polynomial value computed on line 264 of Exo._calc_wm_wa:
`5*θ^4*poly4 + 4*θ^3*poly3 + 3*θ^2*poly2 + 2*θ*poly1 + poly0` where θ is
`data['ankle_angle_rad']`. -/
def wm_wa_raw (c : WmWaCoeffs) (ankle_angle : ℚ) : ℚ :=
  5 * ankle_angle ^ 4 * c.poly4 + 4 * ankle_angle ^ 3 * c.poly3 +
    3 * ankle_angle ^ 2 * c.poly2 + 2 * ankle_angle * c.poly1 + c.poly0

/-- The stored transmission ratio `_wm_wa` after Exo._calc_wm_wa (lines
264-265): the raw polynomial value, replaced by 1 when it is ≤ 0.5
(`self._wm_wa = 1 if self._wm_wa <= .5 else self._wm_wa`). -/
def calc_wm_wa (c : WmWaCoeffs) (ankle_angle : ℚ) : ℚ :=
  if wm_wa_raw c ankle_angle ≤ 1/2 then 1 else wm_wa_raw c ankle_angle

/-- Motor torque constant `_kt = .146` Nm/A (Exo.__init__, line 158). -/
def kt : ℚ := 146/1000

/-- Current saturation limit `_current_limit_A = 25.0` (Exo.__init__, line 159). -/
def current_limit_A : ℚ := 25

/-- Exo._Nm_to_A (lines 233-250): `(torque_cmd_Nm / self._wm_wa) / self._kt`,
with `_wm_wa` freshly recomputed by `_calc_wm_wa` from the current ankle
angle. -/
def Nm_to_A (c : WmWaCoeffs) (ankle_angle torque_cmd_Nm : ℚ) : ℚ :=
  torque_cmd_Nm / calc_wm_wa c ankle_angle / kt

/-- numpy.sign on rationals: 1 for positive, -1 for negative, 0 for zero. -/
def pySign (q : ℚ) : ℚ :=
  if 0 < q then 1 else if q < 0 then -1 else 0

/-- The saturated current computed in Exo.send_torque (line 211):
`requested if |requested| < limit else sign(requested) * limit`. -/
def current_with_saturation_A (c : WmWaCoeffs) (ankle_angle torque_cmd_Nm : ℚ) : ℚ :=
  let requested := Nm_to_A c ankle_angle torque_cmd_Nm
  if |requested| < current_limit_A then requested else pySign requested * current_limit_A

/-- Exo._get_direction_from_is_left (line 385): -1 for the left boot, 1
otherwise. -/
def get_direction_from_is_left (is_left : Bool) : ℤ :=
  if is_left then -1 else 1

/-- Python's int() applied to a rational: truncation toward zero. -/
def pyIntTrunc (q : ℚ) : ℤ :=
  if 0 ≤ q then ⌊q⌋ else ⌈q⌉

/-- The signed milliamp value passed to `command_motor_current` by
Exo.send_torque (line 212): `self._direction * int(1000 * current_with_saturation_A)`. -/
def send_torque_mA (c : WmWaCoeffs) (ankle_angle torque_cmd_Nm : ℚ) (is_left : Bool) : ℤ :=
  get_direction_from_is_left is_left *
    pyIntTrunc (1000 * current_with_saturation_A c ankle_angle torque_cmd_Nm)

/-! ### Helper lemmas about the actuator mapping -/

lemma kt_pos : (0 : ℚ) < kt := by norm_num [kt]

lemma current_limit_pos : (0 : ℚ) < current_limit_A := by norm_num [current_limit_A]

lemma pySign_div_pos (x k : ℚ) (hk : 0 < k) : pySign (x / k) = pySign x := by
  unfold pySign
  rcases lt_trichotomy x 0 with hx | hx | hx
  · have h1 : x / k < 0 := div_neg_of_neg_of_pos hx hk
    rw [if_neg (by linarith), if_pos h1, if_neg (by linarith), if_pos hx]
  · rw [hx, zero_div]
  · have h1 : 0 < x / k := div_pos hx hk
    rw [if_pos h1, if_pos hx]

lemma Nm_to_A_eq (c : WmWaCoeffs) (a tau : ℚ) :
    Nm_to_A c a tau = tau / (calc_wm_wa c a * kt) := by
  rw [Nm_to_A, div_div]

lemma abs_Nm_to_A (c : WmWaCoeffs) (a tau : ℚ) (hr : 0 < calc_wm_wa c a) :
    |Nm_to_A c a tau| = |tau| / (calc_wm_wa c a * kt) := by
  rw [Nm_to_A_eq, abs_div, abs_of_pos (mul_pos hr kt_pos)]

lemma pySign_Nm_to_A (c : WmWaCoeffs) (a tau : ℚ) (hr : 0 < calc_wm_wa c a) :
    pySign (Nm_to_A c a tau) = pySign tau := by
  rw [Nm_to_A_eq]
  exact pySign_div_pos tau _ (mul_pos hr kt_pos)

lemma pySign_self_mul_limit (x : ℚ) (hx : x ≠ 0) :
    pySign (pySign x * current_limit_A) = pySign x := by
  rcases lt_trichotomy x 0 with h | h | h
  · have h1 : pySign x = -1 := by
      unfold pySign
      rw [if_neg (by linarith), if_pos h]
    rw [h1]
    unfold pySign
    norm_num [current_limit_A]
  · exact absurd h hx
  · have h1 : pySign x = 1 := by
      unfold pySign
      rw [if_pos h]
    rw [h1]
    unfold pySign
    norm_num [current_limit_A]

/-! ## Claim C1 -/

/-- Claim C1 (as stated) is false: `_calc_wm_wa` only replaces the raw
ratio by 1 when it is ≤ 0.5, so with coefficients poly4..poly1 = 0 and
poly0 = 3/5 the stored ratio at ankle angle 0 is 3/5, which is below the
claimed floor of 1.0. -/
theorem c1_counterexample :
    calc_wm_wa ⟨0, 0, 0, 0, 3/5⟩ 0 = 3/5 ∧ ¬ (1 ≤ calc_wm_wa ⟨0, 0, 0, 0, 3/5⟩ 0) := by
  constructor
  · norm_num [calc_wm_wa, wm_wa_raw]
  · norm_num [calc_wm_wa, wm_wa_raw]

/-- Claim C1, amended: for every joint angle input and every transmission
polynomial coefficient set, the stored transmission ratio `_wm_wa` after
`_calc_wm_wa` is strictly greater than 0.5 (raw values ≤ 0.5 are replaced
by 1), so the divisor used by `_Nm_to_A` is never at or below 0.5 — but it
is not floored at 1.0. -/
theorem c1_ratio_above_half (c : WmWaCoeffs) (ankle_angle : ℚ) :
    1/2 < calc_wm_wa c ankle_angle := by
  unfold calc_wm_wa
  by_cases h : wm_wa_raw c ankle_angle ≤ 1/2
  · rw [if_pos h]; norm_num
  · rw [if_neg h]; linarith [not_le.mp h]

/-! ## Claim C3 -/

/-- Claim C3: for every torque command and every state with a positive
transmission ratio, the saturated current sent by Exo.send_torque has
magnitude |tau| / (ratio * kt) when that is below the 25 A limit and
exactly the limit otherwise; its magnitude never exceeds the limit; its
sign matches the sign of tau; and the hardware command is the per-leg
direction sign times the saturated current in (truncated) milliamps. -/
theorem c3_send_torque_saturation_sign (c : WmWaCoeffs) (ankle_angle tau : ℚ) (is_left : Bool)
    (hr : 0 < calc_wm_wa c ankle_angle) :
    (|tau| / (calc_wm_wa c ankle_angle * kt) < current_limit_A →
      |current_with_saturation_A c ankle_angle tau| =
        |tau| / (calc_wm_wa c ankle_angle * kt)) ∧
    (current_limit_A ≤ |tau| / (calc_wm_wa c ankle_angle * kt) →
      |current_with_saturation_A c ankle_angle tau| = current_limit_A) ∧
    |current_with_saturation_A c ankle_angle tau| ≤ current_limit_A ∧
    pySign (current_with_saturation_A c ankle_angle tau) = pySign tau ∧
    send_torque_mA c ankle_angle tau is_left =
      get_direction_from_is_left is_left *
        pyIntTrunc (1000 * current_with_saturation_A c ankle_angle tau) := by
  have habs := abs_Nm_to_A c ankle_angle tau hr
  by_cases hlt : |Nm_to_A c ankle_angle tau| < current_limit_A
  · have hsat : current_with_saturation_A c ankle_angle tau = Nm_to_A c ankle_angle tau := by
      unfold current_with_saturation_A
      rw [if_pos hlt]
    refine ⟨fun _ => ?_, fun hge => ?_, ?_, ?_, rfl⟩
    · rw [hsat, habs]
    · exfalso
      rw [habs] at hlt
      linarith
    · rw [hsat]; linarith
    · rw [hsat]
      exact pySign_Nm_to_A c ankle_angle tau hr
  · have hsat : current_with_saturation_A c ankle_angle tau =
        pySign (Nm_to_A c ankle_angle tau) * current_limit_A := by
      unfold current_with_saturation_A
      rw [if_neg hlt]
    have hne : Nm_to_A c ankle_angle tau ≠ 0 := by
      intro h0
      rw [h0, abs_zero] at hlt
      exact hlt current_limit_pos
    have habs_sign : |pySign (Nm_to_A c ankle_angle tau)| = 1 := by
      unfold pySign
      rcases lt_trichotomy (Nm_to_A c ankle_angle tau) 0 with h | h | h
      · rw [if_neg (by linarith), if_pos h]; norm_num
      · exact absurd h hne
      · rw [if_pos h]; norm_num
    have habs_sat : |current_with_saturation_A c ankle_angle tau| = current_limit_A := by
      rw [hsat, abs_mul, habs_sign, one_mul, abs_of_pos current_limit_pos]
    refine ⟨fun hsmall => ?_, fun _ => habs_sat, le_of_eq habs_sat, ?_, rfl⟩
    · exfalso
      rw [habs] at hlt
      exact hlt hsmall
    · rw [hsat, pySign_self_mul_limit _ hne]
      exact pySign_Nm_to_A c ankle_angle tau hr

/-- Witness for C3 at concrete inputs: coefficients all 0 except poly0 = 2,
ankle angle 0 (ratio 2), torque 1 Nm, right boot.  The ratio hypothesis
holds and the requested current 1/(2*0.146) ≈ 3.42 A is below the limit. -/
theorem c3_send_torque_saturation_sign_witness :
    (0 : ℚ) < calc_wm_wa ⟨0, 0, 0, 0, 2⟩ 0 ∧
    |current_with_saturation_A ⟨0, 0, 0, 0, 2⟩ 0 1| =
      |(1 : ℚ)| / (calc_wm_wa ⟨0, 0, 0, 0, 2⟩ 0 * kt) := by
  have hr : (0 : ℚ) < calc_wm_wa ⟨0, 0, 0, 0, 2⟩ 0 := by
    norm_num [calc_wm_wa, wm_wa_raw]
  refine ⟨hr, ?_⟩
  have h := c3_send_torque_saturation_sign ⟨0, 0, 0, 0, 2⟩ 0 1 false hr
  exact h.1 (by norm_num [calc_wm_wa, wm_wa_raw, kt, current_limit_A])

/-! ## ZhangCollins.py: spline push-off torque profile

The WitteCollins variant shares the same completeness-check and
coefficient formulas (ZhangCollins.py lines 130-170, WitteCollins.py
lines 135-181); the embedding below follows ZhangCollins.py, which both
C2 and the spline claims name. -/

/-- The state of a ZhangCollins controller instance: the profile
parameters, the cached spline coefficients, and the last phase and torque
command (ZhangCollins.__init__, lines 59-95; torque_cmd from
Controller.__init__). -/
structure ZCState where
  t0 : ℚ
  t1 : ℚ
  t2 : ℚ
  t3 : ℚ
  ts : ℚ
  tp : ℚ
  user_mass : ℚ
  peak_torque_normalized : ℚ
  a1 : ℚ
  b1 : ℚ
  c1 : ℚ
  d1 : ℚ
  a2 : ℚ
  b2 : ℚ
  c2 : ℚ
  d2 : ℚ
  percent_gait : ℚ
  torque_cmd : ℚ
deriving DecidableEq

/-- A freshly constructed ZhangCollins(): every parameter is the sentinel
-1 and torque_cmd is 0. -/
def zcInit : ZCState :=
  { t0 := -1, t1 := -1, t2 := -1, t3 := -1, ts := -1, tp := -1,
    user_mass := -1, peak_torque_normalized := -1,
    a1 := -1, b1 := -1, c1 := -1, d1 := -1,
    a2 := -1, b2 := -1, c2 := -1, d2 := -1,
    percent_gait := -1, torque_cmd := 0 }

/-- The keyword arguments accepted by ZhangCollins.set_parameters; `none`
models an absent keyword. -/
structure ZCKwargs where
  user_mass : Option ℚ
  ramp_start_percent_gait : Option ℚ
  onset_percent_gait : Option ℚ
  peak_percent_gait : Option ℚ
  stop_percent_gait : Option ℚ
  onset_torque : Option ℚ
  normalized_peak_torque : Option ℚ

/-- One keyword check of set_parameters (lines 130-144): the stored field
is overwritten only when the keyword is present and not -1. -/
def setIfGiven (cur : ℚ) (kw : Option ℚ) : ℚ :=
  match kw with
  | some v => if v ≠ -1 then v else cur
  | none => cur

/-- The field updates performed by set_parameters lines 130-144 before the
completeness check. -/
def zcApplyKwargs (s : ZCState) (kw : ZCKwargs) : ZCState :=
  { s with
    user_mass := setIfGiven s.user_mass kw.user_mass,
    t0 := setIfGiven s.t0 kw.ramp_start_percent_gait,
    t1 := setIfGiven s.t1 kw.onset_percent_gait,
    t2 := setIfGiven s.t2 kw.peak_percent_gait,
    t3 := setIfGiven s.t3 kw.stop_percent_gait,
    ts := setIfGiven s.ts kw.onset_torque,
    peak_torque_normalized := setIfGiven s.peak_torque_normalized kw.normalized_peak_torque }

/-- The truth value of the guard expression on ZhangCollins.py line 147:
`(self.user_mass != -1 and self.t0 != -1, self.t1 != -1 and ... )`.
Because of the comma this expression is a two-element tuple, not a
conjunction, and Python's truth value of a nonempty tuple is True
regardless of its elements. -/
def pyTruthyPair (_a _b : Prop) : Bool := true

/-- Rising-segment coefficient a1 (line 151): `2*(tp-ts)/(t1-t2)^3`. -/
def zc_a1 (t1 t2 ts tp : ℚ) : ℚ := 2 * (tp - ts) / (t1 - t2) ^ 3

/-- Rising-segment coefficient b1 (line 152). -/
def zc_b1 (t1 t2 ts tp : ℚ) : ℚ := -((3 * (t1 + t2) * (tp - ts)) / (t1 - t2) ^ 3)

/-- Rising-segment coefficient c1 (line 153). -/
def zc_c1 (t1 t2 ts tp : ℚ) : ℚ := 6 * t1 * t2 * (tp - ts) / (t1 - t2) ^ 3

/-- Rising-segment coefficient d1 (line 154). -/
def zc_d1 (t1 t2 ts tp : ℚ) : ℚ :=
  -((-(t1 ^ 3) * tp + 3 * t1 ^ 2 * t2 * tp - 3 * t1 * t2 ^ 2 * ts + t2 ^ 3 * ts) /
      (t1 - t2) ^ 3)

/-- Falling-segment coefficient a2 (line 157): `-((tp-ts)/(2*(t2-t3)^3))`. -/
def zc_a2 (t2 t3 ts tp : ℚ) : ℚ := -((tp - ts) / (2 * (t2 - t3) ^ 3))

/-- Falling-segment coefficient b2 (line 158). -/
def zc_b2 (t2 t3 ts tp : ℚ) : ℚ := 3 * t3 * (tp - ts) / (2 * (t2 - t3) ^ 3)

/-- Falling-segment coefficient c2 (line 159). -/
def zc_c2 (t2 t3 ts tp : ℚ) : ℚ :=
  3 * (t2 ^ 2 - 2 * t2 * t3) * (tp - ts) / (2 * (t2 - t3) ^ 3)

/-- Falling-segment coefficient d2 (line 160). -/
def zc_d2 (t2 t3 ts tp : ℚ) : ℚ :=
  -((3 * t2 ^ 2 * t3 * tp - 6 * t2 * t3 ^ 2 * tp + 2 * t3 ^ 3 * tp - 2 * t2 ^ 3 * ts +
        3 * t2 ^ 2 * t3 * ts) / (2 * (t2 - t3) ^ 3))

/-- The coefficient recomputation of set_parameters lines 149-160.  Python
float division raises ZeroDivisionError when a denominator `(t1-t2)^3` or
`(t2-t3)^3` is zero (e.g. when t1 and t2 are both still the -1 sentinel);
that abort is modelled as `none`. -/
def zcRecompute (s : ZCState) : Option ZCState :=
  if (s.t1 - s.t2) ^ 3 = 0 ∨ (s.t2 - s.t3) ^ 3 = 0 then none
  else
    let tp := s.user_mass * s.peak_torque_normalized
    some { s with
      tp := tp,
      a1 := zc_a1 s.t1 s.t2 s.ts tp,
      b1 := zc_b1 s.t1 s.t2 s.ts tp,
      c1 := zc_c1 s.t1 s.t2 s.ts tp,
      d1 := zc_d1 s.t1 s.t2 s.ts tp,
      a2 := zc_a2 s.t2 s.t3 s.ts tp,
      b2 := zc_b2 s.t2 s.t3 s.ts tp,
      c2 := zc_c2 s.t2 s.t3 s.ts tp,
      d2 := zc_d2 s.t2 s.t3 s.ts tp }

/-- ZhangCollins.set_parameters (lines 98-170): apply the keyword updates,
then branch on the line-147 guard; because that guard is a nonempty tuple
the recompute branch is always taken. -/
def zc_set_parameters (s : ZCState) (kw : ZCKwargs) : Option ZCState :=
  let s1 := zcApplyKwargs s kw
  if pyTruthyPair (s1.user_mass ≠ -1 ∧ s1.t0 ≠ -1)
      (s1.t1 ≠ -1 ∧ s1.t2 ≠ -1 ∧ s1.t3 ≠ -1 ∧ s1.ts ≠ -1 ∧
        s1.peak_torque_normalized ≠ -1) = true
  then zcRecompute s1
  else some s1

/-- A cubic polynomial a*x^3 + b*x^2 + c*x + d. -/
def cubic (a b c d x : ℚ) : ℚ := a * x ^ 3 + b * x ^ 2 + c * x + d

/-- First derivative of the cubic: 3*a*x^2 + 2*b*x + c. -/
def cubicDeriv (a b c x : ℚ) : ℚ := 3 * a * x ^ 2 + 2 * b * x + c

/-- Second derivative of the cubic: 6*a*x + 2*b. -/
def cubicDeriv2 (a b x : ℚ) : ℚ := 6 * a * x + 2 * b

/-- The torque expression of calculate_torque_cmd lines 196-210, as a
function of the (already updated) stored state. -/
def zcTau (s : ZCState) : ℚ :=
  if s.percent_gait ≠ -1 then
    if s.percent_gait ≤ s.t1 ∧ s.t0 ≤ s.percent_gait then
      s.ts / (s.t1 - s.t0) * s.percent_gait - s.ts / (s.t1 - s.t0) * s.t0
    else if s.percent_gait ≤ s.t2 then
      cubic s.a1 s.b1 s.c1 s.d1 s.percent_gait
    else if s.percent_gait ≤ s.t3 then
      cubic s.a2 s.b2 s.c2 s.d2 s.percent_gait
    else 0
  else 0

/-- ZhangCollins.calculate_torque_cmd (lines 172-214): store the incoming
percent_gait when it is present and not -1 (otherwise keep the stored
one), compute the torque, store it and return it. -/
def zc_calculate_torque_cmd (s : ZCState) (pg : Option ℚ) : ZCState × ℚ :=
  let s1 :=
    match pg with
    | some p => if p ≠ -1 then { s with percent_gait := p } else s
    | none => s
  let tau := zcTau s1
  ({ s1 with torque_cmd := tau }, tau)

/-- The state produced by a successful set_parameters call on a fresh
instance with the given full parameter set. -/
def zcConfigured (um t0 t1 t2 t3 ts ptn : ℚ) : ZCState :=
  { t0 := t0, t1 := t1, t2 := t2, t3 := t3, ts := ts,
    tp := um * ptn, user_mass := um, peak_torque_normalized := ptn,
    a1 := zc_a1 t1 t2 ts (um * ptn), b1 := zc_b1 t1 t2 ts (um * ptn),
    c1 := zc_c1 t1 t2 ts (um * ptn), d1 := zc_d1 t1 t2 ts (um * ptn),
    a2 := zc_a2 t2 t3 ts (um * ptn), b2 := zc_b2 t2 t3 ts (um * ptn),
    c2 := zc_c2 t2 t3 ts (um * ptn), d2 := zc_d2 t2 t3 ts (um * ptn),
    percent_gait := -1, torque_cmd := 0 }

/-! ## Claim C2 -/

/-- Claim C2 is right about the intended behaviour but the code violates
it: the completeness guard on ZhangCollins.py line 147 is a two-element
tuple (a comma where `and` was meant), which is always truthy, so
set_parameters never refuses to recompute.  On a fresh instance with only
user_mass supplied (t1 and t2 still the -1 sentinel) the recomputation
divides by (t1 - t2)^3 = 0 and raises ZeroDivisionError (modelled as
`none`) instead of keeping the previous coefficients and reporting the
missing parameters. -/
theorem c2_incomplete_set_parameters_crashes :
    zc_set_parameters zcInit ⟨some 75, none, none, none, none, none, none⟩ = none := by
  norm_num [zc_set_parameters, zcApplyKwargs, setIfGiven, pyTruthyPair, zcRecompute, zcInit]

/-! ## Claim C5 -/

/-- Claim C5 (as stated) is false: with the fully configured profile
user_mass = 100, t0 = 10, t1 = 30, t2 = 50, t3 = 70, ts = 2,
normalized_peak_torque = 1/5 (so t0 < t1 < t2 < t3 and tp = 20), the
defined phase 5 < t0 falls through the ramp test into the rising-spline
branch (5 ≤ t2), and calculate_torque_cmd returns 2507/16 ≈ 156.7 Nm,
not 0. -/
theorem c5_counterexample :
    zc_set_parameters zcInit
        ⟨some 100, some 10, some 30, some 50, some 70, some 2, some (1/5)⟩ =
      some (zcConfigured 100 10 30 50 70 2 (1/5)) ∧
    (zc_calculate_torque_cmd (zcConfigured 100 10 30 50 70 2 (1/5)) (some 5)).2 = 2507/16 ∧
    (2507/16 : ℚ) ≠ 0 := by
  refine ⟨?_, ?_, by norm_num⟩
  · norm_num [zc_set_parameters, zcApplyKwargs, setIfGiven, pyTruthyPair, zcRecompute,
      zcInit, zcConfigured]
  · norm_num [zc_calculate_torque_cmd, zcTau, zcConfigured, cubic, zc_a1, zc_b1, zc_c1, zc_d1]

/-- Claim C5, amended: for a fully configured profile with t0 < t1 < t2 <
t3 and a defined phase p, calculate_torque_cmd returns 0 for p > t3, but
for p < t0 it instead returns the rising cubic evaluated at p (the elif
chain reaches the `percent_gait <= t2` branch), which is in general
nonzero. -/
theorem c5_amended_outside_range (um ptn t0 t1 t2 t3 ts p : ℚ)
    (h01 : t0 < t1) (h12 : t1 < t2) (h23 : t2 < t3) (hp : p ≠ -1) :
    (t3 < p →
      (zc_calculate_torque_cmd (zcConfigured um t0 t1 t2 t3 ts ptn) (some p)).2 = 0) ∧
    (p < t0 →
      (zc_calculate_torque_cmd (zcConfigured um t0 t1 t2 t3 ts ptn) (some p)).2 =
        cubic (zc_a1 t1 t2 ts (um * ptn)) (zc_b1 t1 t2 ts (um * ptn))
          (zc_c1 t1 t2 ts (um * ptn)) (zc_d1 t1 t2 ts (um * ptn)) p) := by
  constructor
  · intro h3
    simp only [zc_calculate_torque_cmd, zcConfigured, zcTau]
    rw [if_pos hp, if_pos hp]
    rw [if_neg (by push_neg; intro h; exfalso; linarith)]
    rw [if_neg (by simp only [not_le]; linarith)]
    rw [if_neg (by simp only [not_le]; linarith)]
  · intro h0
    simp only [zc_calculate_torque_cmd, zcConfigured, zcTau]
    rw [if_pos hp, if_pos hp]
    rw [if_neg (by push_neg; intro _; linarith)]
    rw [if_pos (by linarith)]

/-- Witness for C5 (amended) at the concrete configured profile of the
counterexample: phase 80 > t3 = 70 gives torque 0, and phase 5 < t0 = 10
gives the rising cubic at 5. -/
theorem c5_amended_outside_range_witness :
    (zc_calculate_torque_cmd (zcConfigured 100 10 30 50 70 2 (1/5)) (some 80)).2 = 0 ∧
    (zc_calculate_torque_cmd (zcConfigured 100 10 30 50 70 2 (1/5)) (some 5)).2 =
      cubic (zc_a1 30 50 2 (100 * (1/5))) (zc_b1 30 50 2 (100 * (1/5)))
        (zc_c1 30 50 2 (100 * (1/5))) (zc_d1 30 50 2 (100 * (1/5))) 5 := by
  have h80 := c5_amended_outside_range 100 (1/5) 10 30 50 70 2 80
    (by norm_num) (by norm_num) (by norm_num) (by norm_num)
  have h5 := c5_amended_outside_range 100 (1/5) 10 30 50 70 2 5
    (by norm_num) (by norm_num) (by norm_num) (by norm_num)
  exact ⟨h80.1 (by norm_num), h5.2 (by norm_num)⟩

/-! ## Claim C6 -/

/-- Claim C6 (as stated) is false: for the valid parameter set t0 = 10,
t1 = 20, t2 = 30, t3 = 40, ts = 2, tp = 20 the falling cubic computed by
set_parameters has derivative -27/10 at t3, not 0 (its curvature, not its
slope, vanishes at t3). -/
theorem c6_counterexample :
    ((10:ℚ) < 20 ∧ (20:ℚ) < 30 ∧ (30:ℚ) < 40) ∧
    cubicDeriv (zc_a2 30 40 2 20) (zc_b2 30 40 2 20) (zc_c2 30 40 2 20) 40 = -27/10 ∧
    (-27/10 : ℚ) ≠ 0 := by
  refine ⟨by norm_num, ?_, by norm_num⟩
  norm_num [cubicDeriv, zc_a2, zc_b2, zc_c2]

/-- Claim C6, amended: for every parameter set with t0 < t1 < t2 < t3 the
rising cubic computed by set_parameters satisfies p(t1) = ts, p(t2) = tp,
p'(t1) = 0 and p'(t2) = 0 (the full Hermite conditions), while the
falling cubic satisfies p(t2) = tp, p(t3) = ts, p'(t2) = 0 and
p''(t3) = 0 — its second derivative, not its first, vanishes at t3; the
two segments are continuous at t2 with common value tp. -/
theorem c6_amended_spline_boundary (t0 t1 t2 t3 ts tp : ℚ)
    (h01 : t0 < t1) (h12 : t1 < t2) (h23 : t2 < t3) :
    cubic (zc_a1 t1 t2 ts tp) (zc_b1 t1 t2 ts tp) (zc_c1 t1 t2 ts tp)
        (zc_d1 t1 t2 ts tp) t1 = ts ∧
    cubic (zc_a1 t1 t2 ts tp) (zc_b1 t1 t2 ts tp) (zc_c1 t1 t2 ts tp)
        (zc_d1 t1 t2 ts tp) t2 = tp ∧
    cubicDeriv (zc_a1 t1 t2 ts tp) (zc_b1 t1 t2 ts tp) (zc_c1 t1 t2 ts tp) t1 = 0 ∧
    cubicDeriv (zc_a1 t1 t2 ts tp) (zc_b1 t1 t2 ts tp) (zc_c1 t1 t2 ts tp) t2 = 0 ∧
    cubic (zc_a2 t2 t3 ts tp) (zc_b2 t2 t3 ts tp) (zc_c2 t2 t3 ts tp)
        (zc_d2 t2 t3 ts tp) t2 = tp ∧
    cubic (zc_a2 t2 t3 ts tp) (zc_b2 t2 t3 ts tp) (zc_c2 t2 t3 ts tp)
        (zc_d2 t2 t3 ts tp) t3 = ts ∧
    cubicDeriv (zc_a2 t2 t3 ts tp) (zc_b2 t2 t3 ts tp) (zc_c2 t2 t3 ts tp) t2 = 0 ∧
    cubicDeriv2 (zc_a2 t2 t3 ts tp) (zc_b2 t2 t3 ts tp) t3 = 0 ∧
    cubic (zc_a1 t1 t2 ts tp) (zc_b1 t1 t2 ts tp) (zc_c1 t1 t2 ts tp)
        (zc_d1 t1 t2 ts tp) t2 =
      cubic (zc_a2 t2 t3 ts tp) (zc_b2 t2 t3 ts tp) (zc_c2 t2 t3 ts tp)
        (zc_d2 t2 t3 ts tp) t2 := by
  have h12ne : t1 - t2 ≠ 0 := sub_ne_zero.mpr (ne_of_lt h12)
  have h23ne : t2 - t3 ≠ 0 := sub_ne_zero.mpr (ne_of_lt h23)
  refine ⟨?_, ?_, ?_, ?_, ?_, ?_, ?_, ?_, ?_⟩
  · unfold cubic zc_a1 zc_b1 zc_c1 zc_d1
    field_simp
    ring
  · unfold cubic zc_a1 zc_b1 zc_c1 zc_d1
    field_simp
    ring
  · unfold cubicDeriv zc_a1 zc_b1 zc_c1
    field_simp
    ring
  · unfold cubicDeriv zc_a1 zc_b1 zc_c1
    field_simp
    ring
  · unfold cubic zc_a2 zc_b2 zc_c2 zc_d2
    field_simp
    ring
  · unfold cubic zc_a2 zc_b2 zc_c2 zc_d2
    field_simp
    ring
  · unfold cubicDeriv zc_a2 zc_b2 zc_c2
    field_simp
    ring
  · unfold cubicDeriv2 zc_a2 zc_b2
    field_simp
    ring
  · unfold cubic zc_a1 zc_b1 zc_c1 zc_d1 zc_a2 zc_b2 zc_c2 zc_d2
    field_simp
    ring

/-- Witness for C6 (amended) at t0 = 10, t1 = 20, t2 = 30, t3 = 40,
ts = 2, tp = 20: the rising cubic meets the Hermite conditions and the
falling cubic's second derivative vanishes at t3. -/
theorem c6_amended_spline_boundary_witness :
    cubic (zc_a1 20 30 2 20) (zc_b1 20 30 2 20) (zc_c1 20 30 2 20)
        (zc_d1 20 30 2 20) 20 = 2 ∧
    cubicDeriv2 (zc_a2 30 40 2 20) (zc_b2 30 40 2 20) 40 = 0 := by
  have h := c6_amended_spline_boundary 10 20 30 40 2 20
    (by norm_num) (by norm_num) (by norm_num)
  exact ⟨h.1, h.2.2.2.2.2.2.2.1⟩

/-! ## Claim C10 -/

/-- Claim C10: when calculate_torque_cmd is called with percent_gait
missing or equal to the -1 sentinel, it behaves exactly as if the stored
phase had been passed again — silently reusing the stale phase — whenever
a valid phase was stored earlier; it returns 0 on missing input only when
the stored phase is still the -1 sentinel (no valid phase ever supplied). -/
theorem c10_stale_phase_reuse (s : ZCState) (pg : Option ℚ)
    (hin : pg = none ∨ pg = some (-1)) :
    (s.percent_gait ≠ -1 →
      zc_calculate_torque_cmd s pg = zc_calculate_torque_cmd s (some s.percent_gait)) ∧
    (s.percent_gait = -1 → (zc_calculate_torque_cmd s pg).2 = 0) := by
  have hskip : ∀ q : Option ℚ, q = none ∨ q = some (-1) →
      (match q with
        | some p => if p ≠ -1 then { s with percent_gait := p } else s
        | none => s) = s := by
    intro q hq
    rcases hq with h | h <;> subst h
    · rfl
    · simp
  constructor
  · intro hset
    unfold zc_calculate_torque_cmd
    rw [hskip pg hin]
    have hself : (match some s.percent_gait with
        | some p => if p ≠ -1 then { s with percent_gait := p } else s
        | none => s) = s := by
      show (if s.percent_gait ≠ -1 then { s with percent_gait := s.percent_gait } else s) = s
      rw [if_pos hset]
    rw [hself]
  · intro hunset
    unfold zc_calculate_torque_cmd
    rw [hskip pg hin]
    simp only [zcTau, hunset]
    norm_num

/-- Witness for C10: with the configured profile of the C5 counterexample
and stored phase 40, a call with percent_gait missing returns the same
result as an explicit call at 40, namely 11 Nm (nonzero); and on a fresh
instance a missing input returns 0. -/
theorem c10_stale_phase_reuse_witness :
    zc_calculate_torque_cmd { zcConfigured 100 10 30 50 70 2 (1/5) with percent_gait := 40 }
        none =
      zc_calculate_torque_cmd { zcConfigured 100 10 30 50 70 2 (1/5) with percent_gait := 40 }
        (some 40) ∧
    (zc_calculate_torque_cmd { zcConfigured 100 10 30 50 70 2 (1/5) with percent_gait := 40 }
        none).2 = 11 ∧
    (zc_calculate_torque_cmd zcInit none).2 = 0 := by
  have h1 := c10_stale_phase_reuse
    { zcConfigured 100 10 30 50 70 2 (1/5) with percent_gait := 40 } none (Or.inl rfl)
  have h2 := c10_stale_phase_reuse zcInit none (Or.inl rfl)
  refine ⟨h1.1 (by norm_num [zcConfigured]), ?_, h2.2 (by norm_num [zcInit])⟩
  norm_num [zc_calculate_torque_cmd, zcTau, zcConfigured, cubic, zc_a1, zc_b1, zc_c1, zc_d1]

/-! ## GaitCalculator.py: gait events, duration filters, percent gait -/

/-- Python `list.insert(0, d)` followed by `list.pop()` (GaitCalculator
lines 184-185, 188-189, 203-204, 207-208): push the new value at the
front and drop the last (oldest) entry. -/
def pushFifo (l : List ℚ) (d : ℚ) : List ℚ := (d :: l).dropLast

/-- Python `min` over a list of rationals (only applied to nonempty
buffers in the source; the value on [] is irrelevant). -/
def listMin : List ℚ → ℚ
  | [] => 0
  | [a] => a
  | a :: b :: r => min a (listMin (b :: r))

/-- Python `max` over a list of rationals (only applied to nonempty
buffers in the source; the value on [] is irrelevant). -/
def listMax : List ℚ → ℚ
  | [] => 0
  | [a] => a
  | a :: b :: r => max a (listMax (b :: r))

/-- The stride-duration filter of _update_expected_stride_duration (lines
183-191): while the sentinel -1 is still in the buffer, push
unconditionally (and leave the expected duration untouched); once full,
accept only if the candidate is within [0.25*min, 1.75*min] of the
buffer, pushing FIFO and setting the expected duration to the buffer mean;
otherwise leave both unchanged. -/
def update_stride_filter (buf : List ℚ) (expected d : ℚ) (N : ℕ) : List ℚ × ℚ :=
  if (-1 : ℚ) ∈ buf then (pushFifo buf d, expected)
  else if 1/4 * listMin buf ≤ d ∧ d ≤ 7/4 * listMin buf then
    (pushFifo buf d, (pushFifo buf d).sum / (N : ℚ))
  else (buf, expected)

/-- The stance-duration filter of _update_expected_stance_duration (lines
202-210).  Note the source's full-buffer test is
`stance_duration >= 0.25 * min(...) and stance_duration >= 1.75 * max(...)`:
the second comparison requires the candidate to be at least 1.75 times the
buffer maximum. -/
def update_stance_filter (buf : List ℚ) (expected d : ℚ) (N : ℕ) : List ℚ × ℚ :=
  if (-1 : ℚ) ∈ buf then (pushFifo buf d, expected)
  else if 1/4 * listMin buf ≤ d ∧ 7/4 * listMax buf ≤ d then
    (pushFifo buf d, (pushFifo buf d).sum / (N : ℚ))
  else (buf, expected)

/-- Feeding a sequence of candidate stride durations through the filter,
threading the (buffer, expected-duration) state. -/
def feedStride (st : List ℚ × ℚ) (ds : List ℚ) (N : ℕ) : List ℚ × ℚ :=
  ds.foldl (fun acc d => update_stride_filter acc.1 acc.2 d N) st

/-- GaitCalculator._calc_percent_gait (lines 212-216): the stored percent
gait is `max(100, (now - heelstrike_timestamp) / expected_stride_duration * 100)`. -/
def calc_percent_gait (heelstrike_timestamp expected_stride_duration now : ℚ) : ℚ :=
  max 100 ((now - heelstrike_timestamp) / expected_stride_duration * 100)

/-- The Python runtime value of the `_past_stride_durations` attribute:
normally a list of rationals, but an integer after clear_gait_estimate
executes `self._past_stride_durations = -1 * self._num_strides_to_avg`. -/
inductive PyVal where
  | ofList (l : List ℚ) : PyVal
  | ofInt (n : ℤ) : PyVal
deriving DecidableEq

/-- The GaitCalculator state touched by clear_gait_estimate and
_update_expected_stride_duration. -/
structure GCState where
  expected_stride_duration_ms : ℚ
  expected_stance_duration_ms : ℚ
  past_stride_durations : PyVal
  heelstrike_timestamp_current : ℚ
  heelstrike_timestamp_previous : ℚ
  num_strides_to_avg : ℕ
deriving DecidableEq

/-- GaitCalculator.__init__ (lines 55-81, restricted to the fields
above): sentinel -1 everywhere and an all-sentinel list of capacity N. -/
def gcInit (N : ℕ) : GCState :=
  { expected_stride_duration_ms := -1, expected_stance_duration_ms := -1,
    past_stride_durations := PyVal.ofList (List.replicate N (-1)),
    heelstrike_timestamp_current := -1, heelstrike_timestamp_previous := -1,
    num_strides_to_avg := N }

/-- GaitCalculator.clear_gait_estimate (lines 98-101): resets the two
expected durations to -1 and assigns
`self._past_stride_durations = -1 * self._num_strides_to_avg`, an integer
(`-N`), not a list — the `[-1] * N` of __init__ was evidently intended. -/
def clear_gait_estimate (s : GCState) : GCState :=
  { s with
    expected_stance_duration_ms := -1,
    expected_stride_duration_ms := -1,
    past_stride_durations := PyVal.ofInt (-1 * (s.num_strides_to_avg : ℤ)) }

/-- GaitCalculator._update_expected_stride_duration (lines 174-191): on
the first-ever call just record the timestamp; otherwise shift the
heelstrike timestamps, form the stride duration, and run the duration
filter.  The membership test `-1 in self._past_stride_durations` raises
TypeError when that attribute is an integer (as it is after
clear_gait_estimate); the raised error is modelled as `none`. -/
def update_expected_stride_duration (s : GCState) (timestamp_ms : ℚ) : Option GCState :=
  if s.heelstrike_timestamp_previous = -1 then
    some { s with heelstrike_timestamp_previous := timestamp_ms }
  else
    let s1 := { s with
      heelstrike_timestamp_previous := s.heelstrike_timestamp_current,
      heelstrike_timestamp_current := timestamp_ms }
    let stride_duration := s1.heelstrike_timestamp_current - s1.heelstrike_timestamp_previous
    match s1.past_stride_durations with
    | PyVal.ofInt _ => none
    | PyVal.ofList buf =>
      let r := update_stride_filter buf s1.expected_stride_duration_ms stride_duration
        s1.num_strides_to_avg
      some { s1 with
        past_stride_durations := PyVal.ofList r.1,
        expected_stride_duration_ms := r.2 }

/-! ### Helper lemmas about the duration filters -/

lemma listMin_replicate (d : ℚ) : ∀ N : ℕ, 1 ≤ N → listMin (List.replicate N d) = d := by
  intro N
  induction N with
  | zero => intro h; exact absurd h (by norm_num)
  | succ n ih =>
    intro _
    cases n with
    | zero => simp [listMin, List.replicate]
    | succ m =>
      have h2 : List.replicate (m + 1) d = d :: List.replicate m d := List.replicate_succ d m
      rw [List.replicate_succ, h2]
      show min d (listMin (d :: List.replicate m d)) = d
      rw [← h2, ih (by omega)]
      exact min_self d

lemma dropLast_replicate_succ (d : ℚ) (N : ℕ) :
    (List.replicate (N + 1) d).dropLast = List.replicate N d := by
  rw [List.replicate_succ', List.dropLast_concat]

lemma pushFifo_replicate (d : ℚ) (N : ℕ) :
    pushFifo (List.replicate N d) d = List.replicate N d := by
  unfold pushFifo
  rw [← List.replicate_succ, dropLast_replicate_succ]

lemma pushFifo_mixed (d : ℚ) (k m : ℕ) :
    pushFifo (List.replicate k d ++ List.replicate (m + 1) (-1)) d =
      List.replicate (k + 1) d ++ List.replicate m (-1) := by
  unfold pushFifo
  have h : (d :: (List.replicate k d ++ List.replicate (m + 1) (-1 : ℚ))) =
      (d :: (List.replicate k d ++ List.replicate m (-1))) ++ [(-1 : ℚ)] := by
    rw [List.replicate_succ' m (-1 : ℚ)]
    simp
  rw [h, List.dropLast_concat, List.replicate_succ]
  simp

lemma neg_one_notMem_replicate (d : ℚ) (hd : d ≠ -1) (N : ℕ) :
    (-1 : ℚ) ∉ List.replicate N d := by
  intro h
  rcases List.eq_of_mem_replicate h with h1
  exact hd h1.symm

lemma feedStride_cons (buf : List ℚ) (e d : ℚ) (ds : List ℚ) (N : ℕ) :
    feedStride (buf, e) (d :: ds) N =
      feedStride (update_stride_filter buf e d N) ds N := by
  unfold feedStride
  rw [List.foldl_cons]

lemma feedStride_bootstrap (d : ℚ) (hd : d ≠ -1) (N : ℕ) :
    ∀ k m : ℕ, k + m = N →
      feedStride (List.replicate m d ++ List.replicate k (-1), -1) (List.replicate k d) N =
        (List.replicate N d, -1) := by
  intro k
  induction k with
  | zero =>
    intro m hm
    simp only [Nat.zero_add] at hm
    subst hm
    simp [feedStride]
  | succ n ih =>
    intro m hm
    have hfold : List.replicate (n + 1) d = d :: List.replicate n d := List.replicate_succ d n
    have hmem : (-1 : ℚ) ∈ List.replicate m d ++ List.replicate (n + 1) (-1) := by
      simp [List.mem_replicate]
    have hstep : update_stride_filter (List.replicate m d ++ List.replicate (n + 1) (-1))
        (-1) d N = (List.replicate (m + 1) d ++ List.replicate n (-1), -1) := by
      unfold update_stride_filter
      rw [if_pos hmem, pushFifo_mixed]
    rw [hfold, feedStride_cons, hstep]
    exact ih (m + 1) (by omega)

/-! ## Claim C4 -/

/-- Claim C4 is right about the intended behaviour but the code violates
it: _calc_percent_gait computes `max(100, value)` — a floor at 100 where
the comment `# cap percent_gait at 100` announces a cap.  With heelstrike
at 0 ms and expected stride duration 1000 ms, at 1500 ms the code reports
150 (exceeding the claimed maximum of 100), and at 500 ms it reports 100
where the claimed formula (50, capped at 100) gives 50. -/
theorem c4_percent_gait_floor_bug :
    calc_percent_gait 0 1000 1500 = 150 ∧
    ¬ (calc_percent_gait 0 1000 1500 ≤ 100) ∧
    calc_percent_gait 0 1000 500 = 100 ∧
    min 100 ((500 - 0) / 1000 * 100 : ℚ) = 50 := by
  refine ⟨?_, ?_, ?_, ?_⟩
  · norm_num [calc_percent_gait, max_def]
  · norm_num [calc_percent_gait, max_def]
  · norm_num [calc_percent_gait, max_def]
  · norm_num [min_def]

/-! ## Claim C7 -/

/-- Claim C7 (as stated) is false: starting from a fresh GaitCalculator
buffer of capacity 3, feeding three stride durations equal to 100 fills
the buffer with 100s but leaves the expected stride duration at the -1
sentinel, because the bootstrap branch of
_update_expected_stride_duration never updates
_expected_stride_duration_ms; it does not equal d = 100. -/
theorem c7_counterexample :
    feedStride (List.replicate 3 (-1), -1) (List.replicate 3 100) 3 =
      (List.replicate 3 100, -1) ∧ (-1 : ℚ) ≠ 100 := by
  constructor
  · norm_num [feedStride, update_stride_filter, pushFifo, listMin, List.replicate]
  · norm_num

/-- Claim C7, amended: after N stride durations equal to d > 0 are fed to
the filter (N = buffer capacity) the buffer is full of d but the expected
stride duration is still the untouched sentinel (the bootstrap branch
does not update it); a subsequent 5*d candidate is rejected, leaving the
buffer and the expected duration unchanged; it takes one further accepted
duration d for the expected duration to become d (the buffer mean). -/
theorem c7_amended_bootstrap_and_outlier (N : ℕ) (d : ℚ) (hN : 1 ≤ N) (hd : 0 < d) :
    feedStride (List.replicate N (-1), -1) (List.replicate N d) N =
      (List.replicate N d, -1) ∧
    update_stride_filter (List.replicate N d) (-1) (5 * d) N = (List.replicate N d, -1) ∧
    update_stride_filter (List.replicate N d) (-1) d N = (List.replicate N d, d) := by
  have hd1 : d ≠ -1 := by linarith
  have hmin := listMin_replicate d N hN
  have hnotmem := neg_one_notMem_replicate d hd1 N
  refine ⟨?_, ?_, ?_⟩
  · have h := feedStride_bootstrap d hd1 N N 0 (by omega)
    simpa using h
  · have hcond : ¬ (1/4 * listMin (List.replicate N d) ≤ 5 * d ∧
        5 * d ≤ 7/4 * listMin (List.replicate N d)) := by
      rw [hmin]
      push_neg
      intro _
      linarith
    unfold update_stride_filter
    rw [if_neg hnotmem, if_neg hcond]
  · have hcond : 1/4 * listMin (List.replicate N d) ≤ d ∧
        d ≤ 7/4 * listMin (List.replicate N d) := by
      rw [hmin]
      constructor <;> linarith
    unfold update_stride_filter
    rw [if_neg hnotmem, if_pos hcond, pushFifo_replicate]
    have hNne : (N : ℚ) ≠ 0 := by
      exact_mod_cast Nat.one_le_iff_ne_zero.mp hN
    have hsum : (List.replicate N d).sum = (N : ℚ) * d := by
      rw [List.sum_replicate, nsmul_eq_mul]
    rw [hsum, mul_comm, mul_div_assoc, div_self hNne, mul_one]

/-- Witness for C7 (amended) at capacity N = 2 and duration d = 100. -/
theorem c7_amended_bootstrap_and_outlier_witness :
    feedStride (List.replicate 2 (-1), -1) (List.replicate 2 100) 2 =
      (List.replicate 2 100, -1) ∧
    update_stride_filter (List.replicate 2 100) (-1) (5 * 100) 2 =
      (List.replicate 2 100, -1) ∧
    update_stride_filter (List.replicate 2 100) (-1) 100 2 = (List.replicate 2 100, 100) :=
  c7_amended_bootstrap_and_outlier 2 100 (by norm_num) (by norm_num)

/-! ## Claim C8 -/

/-- Claim C8 is right about the intended behaviour but the code violates
it: the full-buffer acceptance test of _update_expected_stance_duration
uses `stance_duration >= 1.75 * max(...)` (comparison flipped) instead of
`<= `, so with a full buffer of three 100 ms stances the in-range
candidate 100 (inside [0.25*100, 1.75*100] = [25, 175]) is rejected:
buffer and expected stance duration are left unchanged instead of the
candidate being pushed and the mean 100 stored. -/
theorem c8_stance_filter_rejects_in_range :
    update_stance_filter (List.replicate 3 100) (-1) 100 3 = (List.replicate 3 100, -1) ∧
    (1/4 * 100 ≤ (100 : ℚ) ∧ (100 : ℚ) ≤ 7/4 * 100) := by
  constructor
  · norm_num [update_stance_filter, pushFifo, listMin, listMax, List.replicate]
  · norm_num

/-! ## Claim C9 -/

/-- Claim C9 is right about the intended behaviour but the code violates
it: clear_gait_estimate assigns `-1 * self._num_strides_to_avg` — the
integer -N, not the list `[-1] * N` — to _past_stride_durations, so after
any trial in which a first heelstrike was recorded
(heelstrike_timestamp_previous ≠ -1), the next validated heelstrike's
call to _update_expected_stride_duration evaluates
`-1 in self._past_stride_durations` on an integer and raises TypeError
(modelled as `none`) instead of starting a fresh bootstrap phase. -/
theorem c9_clear_breaks_stride_update (s : GCState) (timestamp_ms : ℚ)
    (hprev : s.heelstrike_timestamp_previous ≠ -1) :
    update_expected_stride_duration (clear_gait_estimate s) timestamp_ms = none := by
  unfold update_expected_stride_duration clear_gait_estimate
  rw [if_neg hprev]

/-- Witness for C9: a capacity-10 estimator whose first heelstrike was
recorded at 500 ms, after clear_gait_estimate, crashes on the stride
update at 2000 ms. -/
theorem c9_clear_breaks_stride_update_witness :
    update_expected_stride_duration
      (clear_gait_estimate { gcInit 10 with heelstrike_timestamp_previous := 500 }) 2000 =
      none :=
  c9_clear_breaks_stride_update { gcInit 10 with heelstrike_timestamp_previous := 500 } 2000
    (by norm_num [gcInit])

end DephyBoot
